import Mathlib

/-!
Verification of the quota / orchestration logic of `api/separate.js`
(muteone-web).  The repository ships three variants of the same API route in
one file; the claims refer to the two later ones:

* the synchronous variant (the poll loop runs inside the `process` request),
  embedded here as `handler3`, and
* the deferred variant (the `process` request records an upload job and a
  separate `check_status` request performs a single state query), embedded
  here as `handler2CheckStatus` together with the `processingStatus` job
  table.

Client IP strings and day strings (`new Date().toDateString()`) are modelled
as abstract identifiers (`Nat`); JS numbers holding counts and sizes are
modelled as `Int` with the explicit `max 0` floors the code writes; fields
that may be absent from the request body are `Option`s, and the JS
truthiness tests (`fileSize && ...`) are modelled as explicit `truthy`
predicates with `none` and `0` falsy.  Remote interactions (the split
acknowledgment and the successive results of the `check` calls) are supplied
as explicit environment values, one observation per fetch performed by the
code.
-/

namespace MuteOne

/-- Client identities (IP address strings) as abstract identifiers. -/
abbrev Ip := Nat

/-- Values of `new Date().toDateString()` as abstract day identifiers. -/
abbrev Day := Nat

/-- `const DAILY_LIMIT = 3`. -/
def DAILY_LIMIT : Int := 3

/-- `const MAX_DURATION_SECONDS = 300`. -/
def MAX_DURATION_SECONDS : Int := 300

/-- The `50 * 1024 * 1024` byte cap of the synchronous variant's upload
branch (`fileSize > 50 * 1024 * 1024`). -/
def MAX_FILE_SIZE : Int := 50 * 1024 * 1024

/-- One entry of the `dailyUploads` map: `{ count, date, processing }`. -/
structure QuotaEntry where
  count : Int
  date : Day
  processing : Bool
deriving Repr, DecidableEq

/-- The `dailyUploads` map. -/
abbrev QuotaStore := Ip → Option QuotaEntry

def QuotaStore.empty : QuotaStore := fun _ => none

/-- `dailyUploads.set(ip, e)`. -/
def QuotaStore.write (s : QuotaStore) (ip : Ip) (e : QuotaEntry) : QuotaStore :=
  fun j => if j = ip then some e else s j

/-- The `WHITELISTED_IPS` set, loaded from the environment. -/
abbrev Whitelist := Ip → Bool

/-- The empty whitelist (default deployment, `WHITELISTED_IPS` unset). -/
def wlNone : Whitelist := fun _ => false

/-- Result object of `checkRateLimit`: `{ allowed, remaining, error?,
whitelisted? }`; the optional `error` message and `whitelisted` marker are
modelled as booleans recording their presence. -/
structure RateCheck where
  allowed : Bool
  remaining : Int
  error : Bool
  whitelisted : Bool
deriving Repr, DecidableEq

/-- `checkRateLimit(ip)` of the synchronous/deferred variants (lines
681-707): whitelisted IPs bypass everything; an absent or rolled-over entry
is replaced by a fresh `{count: 0, date: today, processing: false}` entry
(so the function also writes to the store); a same-day entry with
`processing` set yields the already-processing rejection; otherwise
`allowed` is `count < DAILY_LIMIT` and `remaining` is
`max(0, DAILY_LIMIT - count)`. -/
def checkRateLimit (wl : Whitelist) (today : Day) (s : QuotaStore) (ip : Ip) :
    RateCheck × QuotaStore :=
  if wl ip then
    ({ allowed := true, remaining := 999, error := false, whitelisted := true }, s)
  else
    match s ip with
    | none =>
      ({ allowed := true, remaining := DAILY_LIMIT, error := false, whitelisted := false },
       s.write ip ⟨0, today, false⟩)
    | some data =>
      if data.date ≠ today then
        ({ allowed := true, remaining := DAILY_LIMIT, error := false, whitelisted := false },
         s.write ip ⟨0, today, false⟩)
      else if data.processing then
        ({ allowed := false, remaining := max 0 (DAILY_LIMIT - data.count),
           error := true, whitelisted := false }, s)
      else
        ({ allowed := decide (data.count < DAILY_LIMIT),
           remaining := max 0 (DAILY_LIMIT - data.count),
           error := false, whitelisted := false }, s)

/-- `setProcessing(ip, b)`: no-op for whitelisted IPs; otherwise reads the
entry (defaulting to a fresh one for `today`) and stores it back with the
`processing` flag set to `b`. -/
def setProcessing (wl : Whitelist) (today : Day) (s : QuotaStore) (ip : Ip) (b : Bool) :
    QuotaStore :=
  if wl ip then s
  else
    let data := (s ip).getD ⟨0, today, false⟩
    s.write ip { data with processing := b }

/-- `incrementRateLimit(ip)`: no-op for whitelisted IPs; otherwise
`count += 1` and `processing = false` on the entry (defaulting to a fresh
one for `today`). -/
def incrementRateLimit (wl : Whitelist) (today : Day) (s : QuotaStore) (ip : Ip) :
    QuotaStore :=
  if wl ip then s
  else
    let data := (s ip).getD ⟨0, today, false⟩
    s.write ip { data with count := data.count + 1, processing := false }

/-- `decrementRateLimit(ip)`: no-op for whitelisted IPs; if an entry exists,
`count = max(0, count - 1)` and `processing = false`; no entry is created
otherwise. -/
def decrementRateLimit (wl : Whitelist) (s : QuotaStore) (ip : Ip) : QuotaStore :=
  if wl ip then s
  else
    match s ip with
    | none => s
    | some data => s.write ip { data with count := max 0 (data.count - 1), processing := false }

/-- the `dailyUploads` half of `cleanupOldEntries()`: drop every entry whose
stored date is not today.  The handler runs this at the start of every
request. -/
def cleanupOldEntries (today : Day) (s : QuotaStore) : QuotaStore :=
  fun ip =>
    match s ip with
    | some data => if data.date = today then some data else none
    | none => none

/-- `ALLOWED_STEMS`. -/
def ALLOWED_STEMS : List String :=
  ["voice", "drum", "bass", "piano", "electric_guitar",
   "acoustic_guitar", "synthesizer", "strings", "wind"]

/-- `ALLOWED_STEMS.has(stem)`; an absent `stem` field is never a member. -/
def stemOk : Option String → Bool
  | none => false
  | some s => ALLOWED_STEMS.contains s

/-- JS truthiness of an optional numeric body field: absent and `0` are
falsy, everything else truthy. -/
def truthyInt : Option Int → Bool
  | none => false
  | some n => n != 0

/-- JS truthiness of the `uploadId` field (an opaque identifier; the falsy
empty string is modelled by `0`). -/
def truthyId : Option Nat → Bool
  | none => false
  | some n => n != 0

/-- the guard `fileSize && fileSize > 50 * 1024 * 1024`. -/
def fileSizeTooLarge : Option Int → Bool
  | none => false
  | some n => n != 0 && decide (n > MAX_FILE_SIZE)

/-- the guard `estimatedDuration && estimatedDuration > MAX_DURATION_SECONDS`. -/
def durationTooLong : Option Int → Bool
  | none => false
  | some n => n != 0 && decide (n > MAX_DURATION_SECONDS)

/-- The JSON request body destructured by the handler. -/
structure RequestBody where
  action : String
  filename : Option String := none
  stem : Option String := none
  uploadId : Option Nat := none
  fileSize : Option Int := none
  estimatedDuration : Option Int := none
deriving Repr, DecidableEq

/-- Error tags of the JSON responses, as written by the code. -/
def errInvalidStem : String := "Invalid stem"

def errDailyLimit : String := "Daily limit exceeded"

def errProcessingInProgress : String := "Processing in progress"

def errFileTooLarge : String := "File too large"

def errAudioTooLong : String := "Audio too long"

def errUploadIdRequired : String := "Upload ID required"

def errInitFailed : String := "Processing initialization failed"

def errProcessingFailed : String := "Processing failed"

def errProcessingTimeout : String := "Processing timeout"

def errUploadNotFound : String := "Upload not found"

def errStatusCheckFailed : String := "Status check failed"

def errInvalidAction : String := "Invalid action specified"

/-- The JSON response envelope; fields absent from a given response are
`none` / `false`. -/
structure Response where
  status : Nat
  error : Option String := none
  ok : Bool := false
  processing : Bool := false
  remaining : Option Int := none
  limit : Option Int := none
  can_upload : Option Bool := none
  remaining_uploads : Option Int := none
  back_track_url : Option String := none
  stem_track_url : Option String := none
deriving Repr, DecidableEq

/-- State of an external task as dispatched on by the code
(`taskInfo?.task?.state`); every state other than the three the code names,
including a missing one, lands in `other`. -/
inductive TaskState where
  | success (backTrack stemTrack : String)
  | error
  | cancelled
  | other
deriving Repr, DecidableEq

/-- Outcome of one iteration's `check` fetch inside the poll loop: either a
transport exception (caught by the `pollError` handler) or a task state. -/
inductive PollOutcome where
  | exn
  | state (t : TaskState)
deriving Repr, DecidableEq

/-- Outcome of the initial `split` request of the `process` branch. -/
inductive SplitOutcome where
  | exn
  | notSuccess
  | ok
deriving Repr, DecidableEq

/-- Upstream observations made during one `process` request of the
synchronous variant: the split acknowledgment and the successive check
results, one per poll attempt. -/
structure UpstreamEnv where
  split : SplitOutcome
  polls : Nat → PollOutcome

/-- An upstream environment for requests whose action never reaches the
remote service. -/
def envIdle : UpstreamEnv := { split := SplitOutcome.exn, polls := fun _ => PollOutcome.exn }

/-- `const maxAttempts = 180`. -/
def maxAttempts : Nat := 180

/-- A poll observation that does not end the loop: a transport exception or
any task state other than `success`, `error`, `cancelled`. -/
def nonTerminal : PollOutcome → Bool
  | PollOutcome.exn => true
  | PollOutcome.state TaskState.other => true
  | PollOutcome.state _ => false

/-- Result of the synchronous poll loop. -/
inductive PollResult where
  | found (backTrack stemTrack : String)
  | failed
  | timeout
deriving Repr, DecidableEq

/-- the `while (attempt < maxAttempts)` loop (lines 868-902): a `success`
state breaks out with the split result; `error`/`cancelled` aborts (the
caller then debits and answers 502); any other state, and any transport
exception, consumes one attempt; an exhausted budget yields a timeout. -/
def pollLoop (polls : Nat → PollOutcome) : Nat → Nat → PollResult
  | _, 0 => PollResult.timeout
  | attempt, fuel + 1 =>
    match polls attempt with
    | PollOutcome.state (TaskState.success bt st) => PollResult.found bt st
    | PollOutcome.state TaskState.error => PollResult.failed
    | PollOutcome.state TaskState.cancelled => PollResult.failed
    | PollOutcome.state TaskState.other => pollLoop polls (attempt + 1) fuel
    | PollOutcome.exn => pollLoop polls (attempt + 1) fuel

/-- the `process` branch of the synchronous variant (lines 828-935),
entered with the already-cleaned store: a falsy `uploadId` clears the
processing flag and answers 400; a thrown or unacknowledged split request
debits and answers 500 / 502; then the poll loop runs, and its outcome
debits and answers 502 (task error/cancelled) or 504 (budget exhausted), or
credits via `incrementRateLimit` and answers 200 with the two track URLs
and the re-checked remaining count. -/
def processAction3 (wl : Whitelist) (today : Day) (s : QuotaStore) (ip : Ip)
    (body : RequestBody) (env : UpstreamEnv) : Response × QuotaStore :=
  if !truthyId body.uploadId then
    ({ status := 400, error := some errUploadIdRequired }, setProcessing wl today s ip false)
  else
    match env.split with
    | SplitOutcome.exn =>
      ({ status := 500, error := some errProcessingFailed }, decrementRateLimit wl s ip)
    | SplitOutcome.notSuccess =>
      ({ status := 502, error := some errInitFailed }, decrementRateLimit wl s ip)
    | SplitOutcome.ok =>
      match pollLoop env.polls 0 maxAttempts with
      | PollResult.failed =>
        ({ status := 502, error := some errProcessingFailed }, decrementRateLimit wl s ip)
      | PollResult.timeout =>
        ({ status := 504, error := some errProcessingTimeout }, decrementRateLimit wl s ip)
      | PollResult.found bt st =>
        let s1 := incrementRateLimit wl today s ip
        let rc := checkRateLimit wl today s1 ip
        ({ status := 200, ok := true, back_track_url := some bt, stem_track_url := some st,
           remaining_uploads := some rc.1.remaining }, rc.2)

/-- the `upload` branch (lines 783-826), entered with the already-cleaned
store: rate check (already-processing 429 before daily-limit 429), then the
truthy size and duration guards (413), then `setProcessing(ip, true)` and
the authorization response reporting `remaining - 1` provisionally. -/
def uploadAction3 (wl : Whitelist) (today : Day) (s : QuotaStore) (ip : Ip)
    (body : RequestBody) : Response × QuotaStore :=
  let rc := checkRateLimit wl today s ip
  if !rc.1.allowed then
    if rc.1.error then
      ({ status := 429, error := some errProcessingInProgress,
         remaining := some rc.1.remaining }, rc.2)
    else
      ({ status := 429, error := some errDailyLimit, remaining := some 0 }, rc.2)
  else if fileSizeTooLarge body.fileSize then
    ({ status := 413, error := some errFileTooLarge }, rc.2)
  else if durationTooLong body.estimatedDuration then
    ({ status := 413, error := some errAudioTooLong }, rc.2)
  else
    ({ status := 200, remaining := some (rc.1.remaining - 1) },
     setProcessing wl today rc.2 ip true)

/-- the POST handler of the synchronous variant (lines 748-961), from the
per-request `cleanupOldEntries()` call on: stem validation for every action
except `check_limit`, then dispatch on the `action` discriminator (this
variant has no `check_status` branch, so that action falls through to the
invalid-action 400). -/
def handler3 (wl : Whitelist) (today : Day) (s0 : QuotaStore) (ip : Ip)
    (body : RequestBody) (env : UpstreamEnv) : Response × QuotaStore :=
  let s := cleanupOldEntries today s0
  if body.action != "check_limit" && !stemOk body.stem then
    ({ status := 400, error := some errInvalidStem }, s)
  else if body.action = "upload" then
    uploadAction3 wl today s ip body
  else if body.action = "process" then
    processAction3 wl today s ip body env
  else if body.action = "check_limit" then
    let rc := checkRateLimit wl today s ip
    ({ status := 200, remaining := some rc.1.remaining, limit := some DAILY_LIMIT,
       can_upload := some (rc.1.allowed && !rc.1.error) }, rc.2)
  else
    ({ status := 400, error := some errInvalidAction }, s)

/-- One entry of the deferred variant's `processingStatus` map:
`{ status, stem, ip, timestamp }`. -/
structure JobInfo where
  status : String
  stem : String
  ip : Ip
  timestamp : Int
deriving Repr, DecidableEq

/-- The `processingStatus` map, keyed by the external upload id. -/
abbrev JobStore := Nat → Option JobInfo

def JobStore.empty : JobStore := fun _ => none

def JobStore.write (js : JobStore) (id : Nat) (j : JobInfo) : JobStore :=
  fun k => if k = id then some j else js k

/-- `processingStatus.delete(id)`. -/
def JobStore.del (js : JobStore) (id : Nat) : JobStore :=
  fun k => if k = id then none else js k

/-- the `processingStatus` half of the deferred variant's
`cleanupOldEntries()`: drop every job whose timestamp is more than ten
minutes old (`status.timestamp < Date.now() - 10 * 60 * 1000`). -/
def cleanupJobs (now : Int) (js : JobStore) : JobStore :=
  fun k =>
    match js k with
    | some j => if j.timestamp < now - 10 * 60 * 1000 then none else some j
    | none => none

/-- `fetchWithRetry` (lines 364-387) specialised to the `check` call: each
attempt either throws (`none`) or yields a response whose parsed task state
is the given value; the first response within the retry budget is returned,
and exhausting the budget propagates the exception (`none`). -/
def fetchWithRetryGo (attempts : Nat → Option TaskState) : Nat → Nat → Option TaskState
  | _, 0 => none
  | attempt, fuel + 1 =>
    match attempts attempt with
    | some r => some r
    | none => fetchWithRetryGo attempts (attempt + 1) fuel

/-- the `check_status` branch of the deferred variant (lines 538-609),
taken from the handler entry: both cleanup sweeps run first; a falsy
`uploadId` answers 400; a missing job answers 404; otherwise one logical
state query is performed through `fetchWithRetry` (transport budget 2), and
a `success` state credits the job's owner and deletes the job, an
`error`/`cancelled` state debits the owner and deletes the job, any other
state answers `processing: true` leaving both stores as the sweeps left
them, and a propagated transport exception answers 500. -/
def handler2CheckStatus (wl : Whitelist) (today : Day) (now : Int)
    (s0 : QuotaStore) (js0 : JobStore) (uploadId : Option Nat)
    (attempts : Nat → Option TaskState) : Response × QuotaStore × JobStore :=
  let s := cleanupOldEntries today s0
  let js := cleanupJobs now js0
  if !truthyId uploadId then
    ({ status := 400, error := some errUploadIdRequired }, s, js)
  else
    let id := uploadId.getD 0
    match js id with
    | none => ({ status := 404, error := some errUploadNotFound }, s, js)
    | some info =>
      match fetchWithRetryGo attempts 0 2 with
      | none => ({ status := 500, error := some errStatusCheckFailed }, s, js)
      | some (TaskState.success bt st) =>
        let s1 := incrementRateLimit wl today s info.ip
        let js1 := js.del id
        let rc := checkRateLimit wl today s1 info.ip
        ({ status := 200, ok := true, back_track_url := some bt, stem_track_url := some st,
           remaining_uploads := some rc.1.remaining }, rc.2, js1)
      | some TaskState.error =>
        ({ status := 502, error := some errProcessingFailed },
         decrementRateLimit wl s info.ip, js.del id)
      | some TaskState.cancelled =>
        ({ status := 502, error := some errProcessingFailed },
         decrementRateLimit wl s info.ip, js.del id)
      | some TaskState.other =>
        ({ status := 200, processing := true }, s, js)

/-- The count an identity is charged for the current day: a stored entry
only counts on its own day (the spec's day-rollover invariant). -/
def effectiveCount (today : Day) (s : QuotaStore) (ip : Ip) : Int :=
  match s ip with
  | some d => if d.date = today then d.count else 0
  | none => 0

/-- The in-flight flag an identity carries for the current day. -/
def effectiveProcessing (today : Day) (s : QuotaStore) (ip : Ip) : Bool :=
  match s ip with
  | some d => if d.date = today then d.processing else false
  | none => false

/-- One inbound request of the synchronous variant: the requester, the
current day at that moment, the request body and the upstream observations
of that request. -/
structure Step where
  ip : Ip
  today : Day
  body : RequestBody
  env : UpstreamEnv

/-- Run a sequence of requests against the quota store, threading the
store. -/
def runSteps (wl : Whitelist) (s : QuotaStore) : List Step → QuotaStore
  | [] => s
  | st :: rest => runSteps wl (handler3 wl st.today s st.ip st.body st.env).2 rest

/-- An identity is ready for a `process` request when it is whitelisted or
its current-day entry has the processing flag set, i.e. a prior `upload`
authorization is pending. -/
def processReady (wl : Whitelist) (today : Day) (s : QuotaStore) (ip : Ip) : Bool :=
  wl ip ||
    (match cleanupOldEntries today s ip with
     | some d => d.processing
     | none => false)

/-- A request sequence follows the intended client protocol when every
`process` request is issued by an identity whose pending upload
authorization is still in flight at that point. -/
def protocolOk (wl : Whitelist) (s : QuotaStore) : List Step → Bool
  | [] => true
  | st :: rest =>
    (st.body.action != "process" || processReady wl st.today s st.ip) &&
      protocolOk wl (handler3 wl st.today s st.ip st.body st.env).2 rest

/-- The per-entry quota invariant: the count is within the daily bounds,
and an in-flight entry still has room for its pending upload's credit. -/
def EntryInv (d : QuotaEntry) : Prop :=
  0 ≤ d.count ∧ d.count ≤ DAILY_LIMIT ∧ (d.processing = true → d.count < DAILY_LIMIT)

/-- The store invariant: every stored entry satisfies `EntryInv`. -/
def StoreInv (s : QuotaStore) : Prop :=
  ∀ ip d, s ip = some d → EntryInv d

/-! Concrete fixtures used by witnesses and counterexamples. -/

def stemVoice : String := "voice"

def backUrl : String := "back_track.mp3"

def stemUrl : String := "stem_track.mp3"

def bodyUpload : RequestBody :=
  { action := "upload", stem := some stemVoice, fileSize := some 1000000,
    estimatedDuration := some 60 }

def bodyUploadBig : RequestBody :=
  { action := "upload", stem := some stemVoice, fileSize := some (90 * 1024 * 1024) }

def bodyUploadNoSize : RequestBody :=
  { action := "upload", stem := some stemVoice }

def bodyProcess : RequestBody :=
  { action := "process", stem := some stemVoice, uploadId := some 1 }

def bodyCheckLimit : RequestBody := { action := "check_limit" }

def envPollSuccess : UpstreamEnv :=
  { split := SplitOutcome.ok, polls := fun _ => PollOutcome.state (TaskState.success backUrl stemUrl) }

def envPollError : UpstreamEnv :=
  { split := SplitOutcome.ok, polls := fun _ => PollOutcome.state TaskState.error }

def envPollOther : UpstreamEnv :=
  { split := SplitOutcome.ok, polls := fun _ => PollOutcome.state TaskState.other }

/-- An identity that has one successful upload counted today. -/
def storeOneUsed : QuotaStore := QuotaStore.write QuotaStore.empty 0 ⟨1, 0, false⟩

/-- An identity with two uploads counted on day 0 (stale once the day is 1). -/
def storeStaleTwo : QuotaStore := QuotaStore.write QuotaStore.empty 0 ⟨2, 0, false⟩

/-- An identity whose current-day entry is marked in flight. -/
def storeInFlight : QuotaStore := QuotaStore.write QuotaStore.empty 0 ⟨1, 0, true⟩

/-- Four bare `process` requests, each acknowledged and immediately
successful upstream, with no `upload` authorization in between. -/
def c2Steps : List Step :=
  [⟨0, 0, bodyProcess, envPollSuccess⟩, ⟨0, 0, bodyProcess, envPollSuccess⟩,
   ⟨0, 0, bodyProcess, envPollSuccess⟩, ⟨0, 0, bodyProcess, envPollSuccess⟩]

/-- A protocol-respecting run: one authorized upload followed by its
successful `process` call. -/
def demoSteps : List Step :=
  [⟨0, 0, bodyUpload, envIdle⟩, ⟨0, 0, bodyProcess, envPollSuccess⟩]

/-- A job owned by identity `0`, recorded at time `0`. -/
def jobStoreOne : JobStore := JobStore.write JobStore.empty 5 ⟨"started", stemVoice, 0, 0⟩

/-! Equation lemmas for the store operations, one per source branch. -/

theorem write_at (s : QuotaStore) (ip : Ip) (e : QuotaEntry) :
    QuotaStore.write s ip e ip = some e := by
  simp [QuotaStore.write]

theorem write_ne (s : QuotaStore) (ip : Ip) (e : QuotaEntry) {j : Ip} (h : j ≠ ip) :
    QuotaStore.write s ip e j = s j := by
  simp [QuotaStore.write, h]

theorem cleanup_none {s : QuotaStore} (today : Day) {ip : Ip} (hs : s ip = none) :
    cleanupOldEntries today s ip = none := by
  simp [cleanupOldEntries, hs]

theorem cleanup_today {s : QuotaStore} {today : Day} {ip : Ip} {d : QuotaEntry}
    (hs : s ip = some d) (hd : d.date = today) :
    cleanupOldEntries today s ip = some d := by
  simp [cleanupOldEntries, hs, hd]

theorem cleanup_stale {s : QuotaStore} {today : Day} {ip : Ip} {d : QuotaEntry}
    (hs : s ip = some d) (hd : d.date ≠ today) :
    cleanupOldEntries today s ip = none := by
  simp [cleanupOldEntries, hs, hd]

theorem checkRateLimit_wl {wl : Whitelist} {ip : Ip} (today : Day) (s : QuotaStore)
    (hw : wl ip = true) :
    checkRateLimit wl today s ip =
      ({ allowed := true, remaining := 999, error := false, whitelisted := true }, s) := by
  simp [checkRateLimit, hw]

theorem checkRateLimit_fresh {wl : Whitelist} {ip : Ip} {s : QuotaStore} (today : Day)
    (hw : wl ip = false) (hs : s ip = none) :
    checkRateLimit wl today s ip =
      ({ allowed := true, remaining := DAILY_LIMIT, error := false, whitelisted := false },
       s.write ip ⟨0, today, false⟩) := by
  simp [checkRateLimit, hw, hs]

theorem checkRateLimit_rollover {wl : Whitelist} {ip : Ip} {s : QuotaStore} {today : Day}
    {d : QuotaEntry} (hw : wl ip = false) (hs : s ip = some d) (hd : d.date ≠ today) :
    checkRateLimit wl today s ip =
      ({ allowed := true, remaining := DAILY_LIMIT, error := false, whitelisted := false },
       s.write ip ⟨0, today, false⟩) := by
  simp [checkRateLimit, hw, hs, hd]

theorem checkRateLimit_busy {wl : Whitelist} {ip : Ip} {s : QuotaStore} {today : Day}
    {d : QuotaEntry} (hw : wl ip = false) (hs : s ip = some d) (hd : d.date = today)
    (hp : d.processing = true) :
    checkRateLimit wl today s ip =
      ({ allowed := false, remaining := max 0 (DAILY_LIMIT - d.count),
         error := true, whitelisted := false }, s) := by
  simp [checkRateLimit, hw, hs, hd, hp]

theorem checkRateLimit_idle {wl : Whitelist} {ip : Ip} {s : QuotaStore} {today : Day}
    {d : QuotaEntry} (hw : wl ip = false) (hs : s ip = some d) (hd : d.date = today)
    (hp : d.processing = false) :
    checkRateLimit wl today s ip =
      ({ allowed := decide (d.count < DAILY_LIMIT), remaining := max 0 (DAILY_LIMIT - d.count),
         error := false, whitelisted := false }, s) := by
  simp [checkRateLimit, hw, hs, hd, hp]

theorem setProcessing_wl {wl : Whitelist} {ip : Ip} (today : Day) (s : QuotaStore) (b : Bool)
    (hw : wl ip = true) : setProcessing wl today s ip b = s := by
  simp [setProcessing, hw]

theorem setProcessing_eq {wl : Whitelist} {ip : Ip} (today : Day) (s : QuotaStore) (b : Bool)
    (hw : wl ip = false) :
    setProcessing wl today s ip b =
      s.write ip { (s ip).getD ⟨0, today, false⟩ with processing := b } := by
  simp [setProcessing, hw]

theorem incrementRateLimit_eq {wl : Whitelist} {ip : Ip} (today : Day) (s : QuotaStore)
    (hw : wl ip = false) :
    incrementRateLimit wl today s ip =
      s.write ip ⟨((s ip).getD ⟨0, today, false⟩).count + 1,
                  ((s ip).getD ⟨0, today, false⟩).date, false⟩ := by
  simp [incrementRateLimit, hw]

theorem decrementRateLimit_none {wl : Whitelist} {ip : Ip} {s : QuotaStore}
    (hw : wl ip = false) (hs : s ip = none) : decrementRateLimit wl s ip = s := by
  simp [decrementRateLimit, hw, hs]

theorem decrementRateLimit_some {wl : Whitelist} {ip : Ip} {s : QuotaStore} {d : QuotaEntry}
    (hw : wl ip = false) (hs : s ip = some d) :
    decrementRateLimit wl s ip =
      s.write ip { d with count := max 0 (d.count - 1), processing := false } := by
  simp [decrementRateLimit, hw, hs]

/-! Helper lemmas about the quota-store operations. -/

theorem storeInv_empty : StoreInv QuotaStore.empty := by
  intro ip d h
  simp [QuotaStore.empty] at h

theorem entryInv_fresh (today : Day) : EntryInv ⟨0, today, false⟩ := by
  refine ⟨le_refl 0, by norm_num [DAILY_LIMIT], fun h => by simp at h⟩

theorem write_inv {s : QuotaStore} {ip : Ip} {e : QuotaEntry}
    (h : StoreInv s) (he : EntryInv e) : StoreInv (QuotaStore.write s ip e) := by
  intro j d hj
  by_cases hji : j = ip
  · subst hji
    simp [QuotaStore.write] at hj
    exact hj ▸ he
  · simp [QuotaStore.write, hji] at hj
    exact h j d hj

theorem cleanup_inv {s : QuotaStore} (today : Day) (h : StoreInv s) :
    StoreInv (cleanupOldEntries today s) := by
  intro j d hj
  unfold cleanupOldEntries at hj
  cases hs : s j with
  | none => simp [hs] at hj
  | some e =>
    simp only [hs] at hj
    by_cases hd : e.date = today
    · simp [hd] at hj
      exact hj ▸ h j e hs
    · simp [hd] at hj

theorem checkRateLimit_snd_inv {s : QuotaStore} (wl : Whitelist) (today : Day) (ip : Ip)
    (h : StoreInv s) : StoreInv (checkRateLimit wl today s ip).2 := by
  unfold checkRateLimit
  by_cases hw : wl ip = true
  · simpa [hw] using h
  · simp only [hw, Bool.false_eq_true, if_false]
    cases hs : s ip with
    | none => exact write_inv h (entryInv_fresh today)
    | some data =>
      by_cases hd : data.date = today
      · by_cases hp : data.processing = true <;> simp [hd, hp] <;> exact h
      · simp [hd]
        exact write_inv h (entryInv_fresh today)

theorem setProcessing_false_inv {s : QuotaStore} (wl : Whitelist) (today : Day) (ip : Ip)
    (h : StoreInv s) : StoreInv (setProcessing wl today s ip false) := by
  unfold setProcessing
  by_cases hw : wl ip = true
  · simpa [hw] using h
  · simp only [hw, Bool.false_eq_true, if_false]
    apply write_inv h
    cases hs : s ip with
    | none => exact ⟨le_refl 0, by norm_num [DAILY_LIMIT], fun hc => by simp at hc⟩
    | some d =>
      obtain ⟨h0, h3, _⟩ := h ip d hs
      exact ⟨h0, h3, fun hc => by simp at hc⟩

theorem setProcessing_true_inv {s : QuotaStore} (wl : Whitelist) (today : Day) (ip : Ip)
    (h : StoreInv s) (hb : ∀ d, s ip = some d → d.count < DAILY_LIMIT) :
    StoreInv (setProcessing wl today s ip true) := by
  unfold setProcessing
  by_cases hw : wl ip = true
  · simpa [hw] using h
  · simp only [hw, Bool.false_eq_true, if_false]
    apply write_inv h
    cases hs : s ip with
    | none => exact ⟨le_refl 0, by norm_num [DAILY_LIMIT], fun _ => by norm_num [DAILY_LIMIT]⟩
    | some d =>
      obtain ⟨h0, h3, _⟩ := h ip d hs
      exact ⟨h0, h3, fun _ => hb d hs⟩

theorem incrementRateLimit_inv {s : QuotaStore} (wl : Whitelist) (today : Day) (ip : Ip)
    (h : StoreInv s) (hb : ∀ d, s ip = some d → d.count < DAILY_LIMIT) :
    StoreInv (incrementRateLimit wl today s ip) := by
  unfold incrementRateLimit
  by_cases hw : wl ip = true
  · simpa [hw] using h
  · simp only [hw, Bool.false_eq_true, if_false]
    apply write_inv h
    cases hs : s ip with
    | none =>
      refine ⟨by norm_num, by norm_num [DAILY_LIMIT], fun hc => by simp at hc⟩
    | some d =>
      obtain ⟨h0, _, _⟩ := h ip d hs
      have hc := hb d hs
      simp only [Option.getD_some]
      refine ⟨?_, ?_, fun hx => ?_⟩
      · show (0 : Int) ≤ d.count + 1
        omega
      · show d.count + 1 ≤ DAILY_LIMIT
        unfold DAILY_LIMIT at hc ⊢
        omega
      · simp at hx

theorem decrementRateLimit_inv {s : QuotaStore} (wl : Whitelist) (ip : Ip)
    (h : StoreInv s) : StoreInv (decrementRateLimit wl s ip) := by
  unfold decrementRateLimit
  by_cases hw : wl ip = true
  · simpa [hw] using h
  · simp only [hw, Bool.false_eq_true, if_false]
    cases hs : s ip with
    | none => exact h
    | some d =>
      obtain ⟨h0, h3, _⟩ := h ip d hs
      refine write_inv h ⟨?_, ?_, fun hx => ?_⟩
      · show (0 : Int) ≤ max 0 (d.count - 1)
        omega
      · show max 0 (d.count - 1) ≤ DAILY_LIMIT
        unfold DAILY_LIMIT at h3 ⊢
        omega
      · simp at hx

theorem checkRateLimit_allowed_entry {s : QuotaStore} {wl : Whitelist} {today : Day} {ip : Ip}
    (hw : wl ip = false)
    (ha : (checkRateLimit wl today s ip).1.allowed = true) :
    (checkRateLimit wl today s ip).2 ip = some ⟨effectiveCount today s ip, today, false⟩ ∧
      effectiveCount today s ip < DAILY_LIMIT := by
  cases hs : s ip with
  | none =>
    rw [checkRateLimit_fresh today hw hs] at ha ⊢
    simp [effectiveCount, hs, write_at, DAILY_LIMIT]
  | some data =>
    obtain ⟨c, dt, p⟩ := data
    by_cases hd : dt = today
    · subst hd
      cases p with
      | true =>
        rw [checkRateLimit_busy hw hs rfl rfl] at ha
        simp at ha
      | false =>
        rw [checkRateLimit_idle hw hs rfl rfl] at ha ⊢
        simp at ha
        simp [effectiveCount, hs, ha]
    · rw [checkRateLimit_rollover hw hs hd] at ha ⊢
      simp [effectiveCount, hs, hd, write_at, DAILY_LIMIT]

theorem effectiveCount_cleanup (today : Day) (s : QuotaStore) (ip : Ip) :
    effectiveCount today (cleanupOldEntries today s) ip = effectiveCount today s ip := by
  cases hs : s ip with
  | none => simp [effectiveCount, cleanup_none today hs, hs]
  | some d =>
    by_cases hd : d.date = today
    · simp [effectiveCount, cleanup_today hs hd, hs]
    · simp [effectiveCount, cleanup_stale hs hd, hs, hd]

theorem effectiveProcessing_cleanup (today : Day) (s : QuotaStore) (ip : Ip) :
    effectiveProcessing today (cleanupOldEntries today s) ip = effectiveProcessing today s ip := by
  cases hs : s ip with
  | none => simp [effectiveProcessing, cleanup_none today hs, hs]
  | some d =>
    by_cases hd : d.date = today
    · simp [effectiveProcessing, cleanup_today hs hd, hs]
    · simp [effectiveProcessing, cleanup_stale hs hd, hs, hd]

theorem checkRateLimit_allowed_of_effective {s : QuotaStore} {wl : Whitelist} {today : Day}
    {ip : Ip} (hw : wl ip = false)
    (hp : effectiveProcessing today s ip = false)
    (hc : effectiveCount today s ip < DAILY_LIMIT) :
    (checkRateLimit wl today s ip).1.allowed = true ∧
      (checkRateLimit wl today s ip).1.error = false := by
  cases hs : s ip with
  | none => rw [checkRateLimit_fresh today hw hs]; exact ⟨rfl, rfl⟩
  | some d =>
    by_cases hd : d.date = today
    · have hdp : d.processing = false := by
        have := hp
        rw [effectiveProcessing, hs] at this
        simpa [hd] using this
      rw [checkRateLimit_idle hw hs hd hdp]
      have hdc : d.count < DAILY_LIMIT := by
        have := hc
        rw [effectiveCount, hs] at this
        simpa [hd] using this
      simp [hdc]
    · rw [checkRateLimit_rollover hw hs hd]; exact ⟨rfl, rfl⟩

/-! Invariant preservation through the handler branches. -/

theorem uploadAction3_inv {wl : Whitelist} {today : Day} {s : QuotaStore} {ip : Ip}
    {body : RequestBody} (h : StoreInv s) : StoreInv (uploadAction3 wl today s ip body).2 := by
  have hrc := checkRateLimit_snd_inv wl today ip h
  simp only [uploadAction3]
  split
  · split
    · exact hrc
    · exact hrc
  next hna =>
    split
    · exact hrc
    · split
      · exact hrc
      · have ha : (checkRateLimit wl today s ip).1.allowed = true := by
          simpa using hna
        cases hwb : wl ip with
        | true => rw [setProcessing_wl _ _ _ hwb]; exact hrc
        | false =>
          apply setProcessing_true_inv wl today ip hrc
          intro d hd
          obtain ⟨he, hlt⟩ := checkRateLimit_allowed_entry hwb ha
          rw [he] at hd
          injection hd with hde
          rw [← hde]
          exact hlt

theorem processAction3_inv {wl : Whitelist} {today : Day} {s : QuotaStore} {ip : Ip}
    {body : RequestBody} {env : UpstreamEnv} (h : StoreInv s)
    (hready : wl ip = true ∨ ∃ d, s ip = some d ∧ d.processing = true) :
    StoreInv (processAction3 wl today s ip body env).2 := by
  simp only [processAction3]
  split
  · exact setProcessing_false_inv wl today ip h
  · split
    · exact decrementRateLimit_inv wl ip h
    · exact decrementRateLimit_inv wl ip h
    · split
      · exact decrementRateLimit_inv wl ip h
      · exact decrementRateLimit_inv wl ip h
      · refine checkRateLimit_snd_inv wl today ip ?_
        cases hwb : wl ip with
        | true => simpa [incrementRateLimit, hwb] using h
        | false =>
          apply incrementRateLimit_inv wl today ip h
          intro d hd
          rcases hready with hready | ⟨e, hse, hpe⟩
          · rw [hwb] at hready; exact absurd hready (by simp)
          · rw [hse] at hd
            injection hd with hde
            obtain ⟨_, _, hlt⟩ := h ip e hse
            exact hde ▸ hlt hpe

theorem handler3_inv {wl : Whitelist} {today : Day} {s0 : QuotaStore} {ip : Ip}
    {body : RequestBody} {env : UpstreamEnv} (h : StoreInv s0)
    (hpr : body.action = "process" → processReady wl today s0 ip = true) :
    StoreInv (handler3 wl today s0 ip body env).2 := by
  have hc : StoreInv (cleanupOldEntries today s0) := cleanup_inv today h
  simp only [handler3]
  split
  · exact hc
  · split
    · exact uploadAction3_inv hc
    · split
      next hb =>
        refine processAction3_inv hc ?_
        have hr := hpr hb
        unfold processReady at hr
        cases hwb : wl ip with
        | true => exact Or.inl rfl
        | false =>
          right
          rw [hwb] at hr
          simp only [Bool.false_or] at hr
          cases hcs : cleanupOldEntries today s0 ip with
          | none => rw [hcs] at hr; simp at hr
          | some d => rw [hcs] at hr; exact ⟨d, rfl, hr⟩
      next =>
        split
        · exact checkRateLimit_snd_inv wl today ip hc
        · exact hc

theorem runSteps_inv {wl : Whitelist} :
    ∀ (steps : List Step) (s : QuotaStore),
      StoreInv s → protocolOk wl s steps = true → StoreInv (runSteps wl s steps) := by
  intro steps
  induction steps with
  | nil => intro s h _; simpa [runSteps] using h
  | cons st rest ih =>
    intro s h hp
    simp only [protocolOk, Bool.and_eq_true] at hp
    obtain ⟨hp1, hp2⟩ := hp
    simp only [runSteps]
    refine ih _ (handler3_inv h ?_) hp2
    intro hb
    simp only [Bool.or_eq_true] at hp1
    rcases hp1 with hp1 | hp1
    · rw [hb] at hp1; simp at hp1
    · exact hp1

/-! Dispatch and branch equations for the handler. -/

theorem handler3_upload {wl : Whitelist} {today : Day} {s : QuotaStore} {ip : Ip}
    {body : RequestBody} {env : UpstreamEnv}
    (hact : body.action = "upload") (hstem : stemOk body.stem = true) :
    handler3 wl today s ip body env =
      uploadAction3 wl today (cleanupOldEntries today s) ip body := by
  simp [handler3, hact, hstem]

theorem handler3_upload_bad_stem {wl : Whitelist} {today : Day} {s : QuotaStore} {ip : Ip}
    {body : RequestBody} {env : UpstreamEnv}
    (hact : body.action = "upload") (hstem : stemOk body.stem = false) :
    handler3 wl today s ip body env =
      ({ status := 400, error := some errInvalidStem }, cleanupOldEntries today s) := by
  simp [handler3, hact, hstem]

theorem handler3_process {wl : Whitelist} {today : Day} {s : QuotaStore} {ip : Ip}
    {body : RequestBody} {env : UpstreamEnv}
    (hact : body.action = "process") (hstem : stemOk body.stem = true) :
    handler3 wl today s ip body env =
      processAction3 wl today (cleanupOldEntries today s) ip body env := by
  simp [handler3, hact, hstem]

theorem handler3_check_limit {wl : Whitelist} {today : Day} {s : QuotaStore} {ip : Ip}
    {body : RequestBody} {env : UpstreamEnv} (hact : body.action = "check_limit") :
    handler3 wl today s ip body env =
      ({ status := 200,
         remaining := some (checkRateLimit wl today (cleanupOldEntries today s) ip).1.remaining,
         limit := some DAILY_LIMIT,
         can_upload := some ((checkRateLimit wl today (cleanupOldEntries today s) ip).1.allowed &&
           !(checkRateLimit wl today (cleanupOldEntries today s) ip).1.error) },
       (checkRateLimit wl today (cleanupOldEntries today s) ip).2) := by
  simp [handler3, hact]

theorem uploadAction3_authorized {wl : Whitelist} {today : Day} {s : QuotaStore} {ip : Ip}
    {body : RequestBody}
    (hal : (checkRateLimit wl today s ip).1.allowed = true)
    (hfs : fileSizeTooLarge body.fileSize = false)
    (hdur : durationTooLong body.estimatedDuration = false) :
    uploadAction3 wl today s ip body =
      ({ status := 200, remaining := some ((checkRateLimit wl today s ip).1.remaining - 1) },
       setProcessing wl today (checkRateLimit wl today s ip).2 ip true) := by
  simp [uploadAction3, hal, hfs, hdur]

theorem uploadAction3_busy {wl : Whitelist} {today : Day} {s : QuotaStore} {ip : Ip}
    {body : RequestBody}
    (hal : (checkRateLimit wl today s ip).1.allowed = false)
    (herr : (checkRateLimit wl today s ip).1.error = true) :
    uploadAction3 wl today s ip body =
      ({ status := 429, error := some errProcessingInProgress,
         remaining := some (checkRateLimit wl today s ip).1.remaining },
       (checkRateLimit wl today s ip).2) := by
  simp [uploadAction3, hal, herr]

theorem uploadAction3_too_large {wl : Whitelist} {today : Day} {s : QuotaStore} {ip : Ip}
    {body : RequestBody}
    (hal : (checkRateLimit wl today s ip).1.allowed = true)
    (hfs : fileSizeTooLarge body.fileSize = true) :
    uploadAction3 wl today s ip body =
      ({ status := 413, error := some errFileTooLarge }, (checkRateLimit wl today s ip).2) := by
  simp [uploadAction3, hal, hfs]

theorem processAction3_found {wl : Whitelist} {today : Day} {s : QuotaStore} {ip : Ip}
    {body : RequestBody} {env : UpstreamEnv} {bt st : String}
    (hid : truthyId body.uploadId = true) (hsplit : env.split = SplitOutcome.ok)
    (hpoll : pollLoop env.polls 0 maxAttempts = PollResult.found bt st) :
    processAction3 wl today s ip body env =
      ({ status := 200, ok := true, back_track_url := some bt, stem_track_url := some st,
         remaining_uploads :=
           some (checkRateLimit wl today (incrementRateLimit wl today s ip) ip).1.remaining },
       (checkRateLimit wl today (incrementRateLimit wl today s ip) ip).2) := by
  simp [processAction3, hid, hsplit, hpoll]

theorem processAction3_failed {wl : Whitelist} {today : Day} {s : QuotaStore} {ip : Ip}
    {body : RequestBody} {env : UpstreamEnv}
    (hid : truthyId body.uploadId = true) (hsplit : env.split = SplitOutcome.ok)
    (hpoll : pollLoop env.polls 0 maxAttempts = PollResult.failed) :
    processAction3 wl today s ip body env =
      ({ status := 502, error := some errProcessingFailed }, decrementRateLimit wl s ip) := by
  simp [processAction3, hid, hsplit, hpoll]

theorem processAction3_timed_out {wl : Whitelist} {today : Day} {s : QuotaStore} {ip : Ip}
    {body : RequestBody} {env : UpstreamEnv}
    (hid : truthyId body.uploadId = true) (hsplit : env.split = SplitOutcome.ok)
    (hpoll : pollLoop env.polls 0 maxAttempts = PollResult.timeout) :
    processAction3 wl today s ip body env =
      ({ status := 504, error := some errProcessingTimeout }, decrementRateLimit wl s ip) := by
  simp [processAction3, hid, hsplit, hpoll]

/-! Forward characterization of an authorized upload. -/

theorem upload_authorized_state {wl : Whitelist} {today : Day} {s : QuotaStore} {ip : Ip}
    {body : RequestBody} (env : UpstreamEnv)
    (hw : wl ip = false) (hact : body.action = "upload") (hstem : stemOk body.stem = true)
    (hidle : effectiveProcessing today s ip = false)
    (hroom : effectiveCount today s ip < DAILY_LIMIT)
    (hfs : fileSizeTooLarge body.fileSize = false)
    (hdur : durationTooLong body.estimatedDuration = false) :
    (handler3 wl today s ip body env).1.status = 200 ∧
    (handler3 wl today s ip body env).1.error = none ∧
    (handler3 wl today s ip body env).2 ip =
      some ⟨effectiveCount today s ip, today, true⟩ := by
  have hp' : effectiveProcessing today (cleanupOldEntries today s) ip = false := by
    rw [effectiveProcessing_cleanup]; exact hidle
  have hc' : effectiveCount today (cleanupOldEntries today s) ip < DAILY_LIMIT := by
    rw [effectiveCount_cleanup]; exact hroom
  obtain ⟨hal, herr⟩ := checkRateLimit_allowed_of_effective hw hp' hc'
  obtain ⟨hentry, _⟩ := checkRateLimit_allowed_entry hw hal
  rw [handler3_upload hact hstem, uploadAction3_authorized hal hfs hdur]
  refine ⟨rfl, rfl, ?_⟩
  rw [setProcessing_eq today _ true hw, hentry]
  simp [write_at, effectiveCount_cleanup]

/-- An entry that survives the cleanup sweep was stored and carries today's
date. -/
theorem cleanup_some_inv {s : QuotaStore} {today : Day} {ip : Ip} {d : QuotaEntry}
    (h : cleanupOldEntries today s ip = some d) :
    s ip = some d ∧ d.date = today := by
  unfold cleanupOldEntries at h
  cases hs : s ip with
  | none => rw [hs] at h; simp at h
  | some e =>
    rw [hs] at h
    by_cases hd : e.date = today
    · simp [hd] at h
      refine ⟨congrArg some h, ?_⟩
      rw [← h]
      exact hd
    · simp [hd] at h

/-- Effect of `incrementRateLimit` on a cleaned store: the identity's entry
becomes its day-effective count plus one, dated today, not processing. -/
theorem increment_entry {wl : Whitelist} {today : Day} {s : QuotaStore} {ip : Ip}
    (hw : wl ip = false) :
    incrementRateLimit wl today (cleanupOldEntries today s) ip
      = QuotaStore.write (cleanupOldEntries today s) ip
          ⟨effectiveCount today s ip + 1, today, false⟩ := by
  rw [incrementRateLimit_eq today _ hw]
  cases hb : cleanupOldEntries today s ip with
  | none =>
    have h0 : effectiveCount today s ip = 0 := by
      rw [← effectiveCount_cleanup today s ip]
      simp [effectiveCount, hb]
    simp [h0]
  | some d =>
    obtain ⟨hsd, hdt⟩ := cleanup_some_inv hb
    have hc : effectiveCount today s ip = d.count := by
      simp [effectiveCount, hsd, hdt]
    simp [hc, hdt]

/-- Effect of `decrementRateLimit` on a cleaned store: the identity's
day-effective count is floored-decremented and the flag cleared. -/
theorem decrement_entry {wl : Whitelist} {today : Day} {s : QuotaStore} {ip : Ip}
    (hw : wl ip = false) :
    effectiveCount today (decrementRateLimit wl (cleanupOldEntries today s) ip) ip
      = max 0 (effectiveCount today s ip - 1) ∧
    effectiveProcessing today (decrementRateLimit wl (cleanupOldEntries today s) ip) ip
      = false := by
  cases hb : cleanupOldEntries today s ip with
  | none =>
    have h0 : effectiveCount today s ip = 0 := by
      rw [← effectiveCount_cleanup today s ip]
      simp [effectiveCount, hb]
    rw [decrementRateLimit_none hw hb]
    constructor
    · rw [effectiveCount_cleanup, h0]
      decide
    · simp [effectiveProcessing, hb]
  | some d =>
    obtain ⟨hsd, hdt⟩ := cleanup_some_inv hb
    have hc : effectiveCount today s ip = d.count := by
      simp [effectiveCount, hsd, hdt]
    rw [decrementRateLimit_some hw hb]
    constructor
    · simp [effectiveCount, write_at, hdt, hsd]
    · simp [effectiveProcessing, write_at, hdt]

/-- Forward characterization of a `process` call whose upstream run
succeeds, started from a current-day entry. -/
theorem process_success_state {wl : Whitelist} {today : Day} {s : QuotaStore} {ip : Ip}
    {body : RequestBody} {env : UpstreamEnv} {bt st : String} {c : Int} {p : Bool}
    (hw : wl ip = false) (hact : body.action = "process") (hstem : stemOk body.stem = true)
    (hid : truthyId body.uploadId = true) (hsplit : env.split = SplitOutcome.ok)
    (hpoll : pollLoop env.polls 0 maxAttempts = PollResult.found bt st)
    (hs : s ip = some ⟨c, today, p⟩) :
    (handler3 wl today s ip body env).1.status = 200 ∧
    (handler3 wl today s ip body env).1.ok = true ∧
    (handler3 wl today s ip body env).2 ip = some ⟨c + 1, today, false⟩ := by
  have hclean : cleanupOldEntries today s ip = some ⟨c, today, p⟩ := cleanup_today hs rfl
  have e1 : incrementRateLimit wl today (cleanupOldEntries today s) ip
      = QuotaStore.write (cleanupOldEntries today s) ip ⟨c + 1, today, false⟩ := by
    rw [incrementRateLimit_eq today _ hw, hclean]
    rfl
  have e2 := checkRateLimit_idle (d := ⟨c + 1, today, false⟩) hw
    (write_at (cleanupOldEntries today s) ip ⟨c + 1, today, false⟩) rfl rfl
  rw [handler3_process hact hstem, processAction3_found hid hsplit hpoll, e1, e2]
  exact ⟨rfl, rfl, write_at _ _ _⟩

theorem jobDel_at (js : JobStore) (id : Nat) : JobStore.del js id id = none := by
  simp [JobStore.del]

theorem jobDel_ne (js : JobStore) (id : Nat) {k : Nat} (h : k ≠ id) :
    JobStore.del js id k = js k := by
  simp [JobStore.del, h]

/-! The poll loop on a run that never reaches a terminal state. -/

theorem pollLoop_timeout (polls : Nat → PollOutcome) :
    ∀ (fuel attempt : Nat), (∀ n, n < fuel → nonTerminal (polls (attempt + n)) = true) →
      pollLoop polls attempt fuel = PollResult.timeout := by
  intro fuel
  induction fuel with
  | zero => intro attempt _; rfl
  | succ f ih =>
    intro attempt hall
    have h0 := hall 0 (Nat.succ_pos f)
    have hshift : ∀ n, n < f → nonTerminal (polls (attempt + 1 + n)) = true := by
      intro n hn
      have := hall (n + 1) (by omega)
      rw [show attempt + (n + 1) = attempt + 1 + n by omega] at this
      exact this
    rw [Nat.add_zero] at h0
    cases hp : polls attempt with
    | exn =>
      rw [pollLoop, hp]
      exact ih (attempt + 1) hshift
    | state t =>
      cases t with
      | success bt st => rw [hp] at h0; simp [nonTerminal] at h0
      | error => rw [hp] at h0; simp [nonTerminal] at h0
      | cancelled => rw [hp] at h0; simp [nonTerminal] at h0
      | other =>
        rw [pollLoop, hp]
        exact ih (attempt + 1) hshift


/-! Claim theorems. -/

/-- C1: the claim states that a failed `process` call leaves `count`
unchanged from before the corresponding `upload` authorization (net zero),
clearing the processing flag.  The code violates the count part: `upload`
authorization does not reserve a count (it only sets the processing flag),
yet every `process` failure path calls `decrementRateLimit`, so an identity
that enters the run with `count = 1` ends it with `count = 0` — one below
the pre-upload value — even though the response message claims the upload
count is unaffected.  This run evaluates the embedded handler at that
failing input: upload is authorized (200, flag set, count still 1), the
upstream task then reports `error`, the handler answers 502, and the stored
count drops to 0 with the flag cleared. -/
theorem C1_failed_process_debits_below_baseline :
    (handler3 wlNone 0 storeOneUsed 0 bodyUpload envIdle).1.status = 200 ∧
    (handler3 wlNone 0 storeOneUsed 0 bodyUpload envIdle).2 0 = some ⟨1, 0, true⟩ ∧
    (handler3 wlNone 0 (handler3 wlNone 0 storeOneUsed 0 bodyUpload envIdle).2 0
        bodyProcess envPollError).1.status = 502 ∧
    (handler3 wlNone 0 (handler3 wlNone 0 storeOneUsed 0 bodyUpload envIdle).2 0
        bodyProcess envPollError).2 0 = some ⟨0, 0, false⟩ := by
  decide

/-- C2 counterexample: the claim bounds the stored count by `DAILY_LIMIT`
after any finite sequence of handler operations from the empty store, but
the `process` branch performs no rate check and increments unconditionally
on upstream success: four bare successful `process` requests drive the
count to 4 > 3. -/
theorem C2_bare_process_requests_exceed_limit :
    runSteps wlNone QuotaStore.empty c2Steps 0 = some ⟨4, 0, false⟩ ∧
    ¬ ((4 : Int) ≤ DAILY_LIMIT) := by
  decide

/-- C2 (amended): for request sequences that follow the intended client
protocol — every `process` request is issued while the identity's pending
upload authorization is in flight (or by a whitelisted identity) — every
entry stored after any finite sequence of handler operations from the empty
store has its count within `[0, DAILY_LIMIT]`. -/
theorem C2_count_bounds_under_protocol (wl : Whitelist) (steps : List Step) (ip : Ip)
    (d : QuotaEntry) (hp : protocolOk wl QuotaStore.empty steps = true)
    (hd : runSteps wl QuotaStore.empty steps ip = some d) :
    0 ≤ d.count ∧ d.count ≤ DAILY_LIMIT := by
  have h := runSteps_inv steps QuotaStore.empty storeInv_empty hp
  obtain ⟨h0, h3, _⟩ := h ip d hd
  exact ⟨h0, h3⟩

/-- Witness for C2: a protocol-respecting run — an authorized upload
followed by its successful `process` call — ends with count 1, inside the
bounds. -/
theorem C2_count_bounds_under_protocol_witness :
    protocolOk wlNone QuotaStore.empty demoSteps = true ∧
    runSteps wlNone QuotaStore.empty demoSteps 0 = some ⟨1, 0, false⟩ ∧
    (0 ≤ (1 : Int) ∧ (1 : Int) ≤ DAILY_LIMIT) := by
  refine ⟨by decide, by decide, ?_⟩
  exact C2_count_bounds_under_protocol wlNone demoSteps 0 ⟨1, 0, false⟩ (by decide) (by decide)

/-- C3: when an `upload` authorization (200) by a non-exempt identity is
followed by a `process` call whose upstream run succeeds, the identity's
day-effective count after the success response is exactly one more than
immediately before the upload authorization. -/
theorem C3_success_increments_count_by_one
    (wl : Whitelist) (today : Day) (s0 : QuotaStore) (ip : Ip)
    (ub pb : RequestBody) (ue pe : UpstreamEnv) (bt st : String)
    (hw : wl ip = false)
    (hub : ub.action = "upload") (hustem : stemOk ub.stem = true)
    (hufs : fileSizeTooLarge ub.fileSize = false)
    (hudur : durationTooLong ub.estimatedDuration = false)
    (hidle : effectiveProcessing today s0 ip = false)
    (hroom : effectiveCount today s0 ip < DAILY_LIMIT)
    (hpb : pb.action = "process") (hpstem : stemOk pb.stem = true)
    (hpid : truthyId pb.uploadId = true)
    (hsplit : pe.split = SplitOutcome.ok)
    (hpoll : pollLoop pe.polls 0 maxAttempts = PollResult.found bt st) :
    (handler3 wl today s0 ip ub ue).1.status = 200 ∧
    (handler3 wl today (handler3 wl today s0 ip ub ue).2 ip pb pe).1.status = 200 ∧
    effectiveCount today (handler3 wl today (handler3 wl today s0 ip ub ue).2 ip pb pe).2 ip
      = effectiveCount today s0 ip + 1 := by
  obtain ⟨h200, _, hstate⟩ := upload_authorized_state ue hw hub hustem hidle hroom hufs hudur
  obtain ⟨p200, _, pstate⟩ := process_success_state hw hpb hpstem hpid hsplit hpoll hstate
  refine ⟨h200, p200, ?_⟩
  simp [effectiveCount, pstate]

/-- Witness for C3: identity with one counted upload performs a second,
successful run; the count goes from 1 to 2. -/
theorem C3_success_increments_count_by_one_witness :
    (handler3 wlNone 0 storeOneUsed 0 bodyUpload envIdle).1.status = 200 ∧
    (handler3 wlNone 0 (handler3 wlNone 0 storeOneUsed 0 bodyUpload envIdle).2 0
        bodyProcess envPollSuccess).1.status = 200 ∧
    effectiveCount 0 (handler3 wlNone 0 (handler3 wlNone 0 storeOneUsed 0 bodyUpload envIdle).2 0
        bodyProcess envPollSuccess).2 0 = effectiveCount 0 storeOneUsed 0 + 1 :=
  C3_success_increments_count_by_one wlNone 0 storeOneUsed 0 bodyUpload bodyProcess
    envIdle envPollSuccess backUrl stemUrl rfl rfl (by decide) (by decide) (by decide)
    (by decide) (by decide) rfl (by decide) (by decide) rfl (by decide)

/-- C4: an `upload` request by a non-exempt identity whose current-day
entry has the processing flag set is rejected with 429 and the
already-processing error, and the identity's stored entry is untouched —
the request is not queued. -/
theorem C4_second_upload_rejected_while_in_flight
    (wl : Whitelist) (today : Day) (s : QuotaStore) (ip : Ip) (c : Int)
    (body : RequestBody) (env : UpstreamEnv)
    (hw : wl ip = false) (hs : s ip = some ⟨c, today, true⟩)
    (hact : body.action = "upload") (hstem : stemOk body.stem = true) :
    (handler3 wl today s ip body env).1.status = 429 ∧
    (handler3 wl today s ip body env).1.error = some errProcessingInProgress ∧
    (handler3 wl today s ip body env).2 ip = s ip := by
  have hclean : cleanupOldEntries today s ip = some ⟨c, today, true⟩ := cleanup_today hs rfl
  have hbusy := checkRateLimit_busy (d := ⟨c, today, true⟩) hw hclean rfl rfl
  have hal : (checkRateLimit wl today (cleanupOldEntries today s) ip).1.allowed = false := by
    rw [hbusy]
  have herr : (checkRateLimit wl today (cleanupOldEntries today s) ip).1.error = true := by
    rw [hbusy]
  rw [handler3_upload hact hstem, uploadAction3_busy hal herr]
  refine ⟨rfl, rfl, ?_⟩
  rw [hbusy]
  show cleanupOldEntries today s ip = s ip
  rw [hclean, hs]

/-- Witness for C4: an in-flight identity's second upload attempt is turned
away with the already-processing error and an unchanged entry. -/
theorem C4_second_upload_rejected_while_in_flight_witness :
    (handler3 wlNone 0 storeInFlight 0 bodyUpload envIdle).1.status = 429 ∧
    (handler3 wlNone 0 storeInFlight 0 bodyUpload envIdle).1.error
      = some errProcessingInProgress ∧
    (handler3 wlNone 0 storeInFlight 0 bodyUpload envIdle).2 0 = storeInFlight 0 :=
  C4_second_upload_rejected_while_in_flight wlNone 0 storeInFlight 0 1 bodyUpload envIdle
    rfl (by decide) rfl (by decide)

/-- C5: a `process` run whose split request is acknowledged but whose first
`maxAttempts` (180) poll observations are all non-terminal ends with the
handler debiting the identity's quota — floored decrement of the
current-day count, processing flag cleared — and the 504
processing-timeout error. -/
theorem C5_exhausted_poll_budget_debits_and_returns_504
    (wl : Whitelist) (today : Day) (s : QuotaStore) (ip : Ip) (c : Int) (p : Bool)
    (body : RequestBody) (env : UpstreamEnv)
    (hw : wl ip = false) (hs : s ip = some ⟨c, today, p⟩)
    (hact : body.action = "process") (hstem : stemOk body.stem = true)
    (hid : truthyId body.uploadId = true) (hsplit : env.split = SplitOutcome.ok)
    (hnt : ∀ n, n < maxAttempts → nonTerminal (env.polls n) = true) :
    (handler3 wl today s ip body env).1.status = 504 ∧
    (handler3 wl today s ip body env).1.error = some errProcessingTimeout ∧
    (handler3 wl today s ip body env).2 ip = some ⟨max 0 (c - 1), today, false⟩ := by
  have hclean : cleanupOldEntries today s ip = some ⟨c, today, p⟩ := cleanup_today hs rfl
  have hpoll : pollLoop env.polls 0 maxAttempts = PollResult.timeout := by
    apply pollLoop_timeout env.polls maxAttempts 0
    intro n hn
    simpa using hnt n hn
  rw [handler3_process hact hstem, processAction3_timed_out hid hsplit hpoll]
  refine ⟨rfl, rfl, ?_⟩
  rw [decrementRateLimit_some hw hclean]
  exact write_at _ _ _

/-- Witness for C5: an identity with count 1 starts a process whose task
never leaves the queued state; after 180 observations the handler answers
504 and the entry reads count 0, not processing. -/
theorem C5_exhausted_poll_budget_debits_and_returns_504_witness :
    (handler3 wlNone 0 storeOneUsed 0 bodyProcess envPollOther).1.status = 504 ∧
    (handler3 wlNone 0 storeOneUsed 0 bodyProcess envPollOther).1.error
      = some errProcessingTimeout ∧
    (handler3 wlNone 0 storeOneUsed 0 bodyProcess envPollOther).2 0
      = some ⟨max 0 ((1 : Int) - 1), 0, false⟩ :=
  C5_exhausted_poll_budget_debits_and_returns_504 wlNone 0 storeOneUsed 0 1 false
    bodyProcess envPollOther rfl (by decide) rfl (by decide) (by decide) rfl
    (fun _ _ => rfl)

/-- C6: the deferred variant's `check_status` branch.  A handle whose job is
absent (never existed, or swept as expired) yields 404 with no further
mutation; otherwise one logical state query runs (one `fetchWithRetry`
call, budget 2): `success` credits the job's owner and deletes the job,
`error`/`cancelled` debits the owner (floored decrement, flag cleared) and
deletes the job, and any other state answers `processing: true` leaving the
quota store and job table exactly as the per-request sweeps left them. -/
theorem C6_check_status_contract
    (wl : Whitelist) (today : Day) (now : Int) (s : QuotaStore) (js : JobStore)
    (jid : Nat) (attempts : Nat → Option TaskState)
    (hid : truthyId (some jid) = true) :
    (cleanupJobs now js jid = none →
      (handler2CheckStatus wl today now s js (some jid) attempts).1.status = 404 ∧
      (handler2CheckStatus wl today now s js (some jid) attempts).1.error
        = some errUploadNotFound ∧
      (handler2CheckStatus wl today now s js (some jid) attempts).2.1
        = cleanupOldEntries today s ∧
      (handler2CheckStatus wl today now s js (some jid) attempts).2.2 = cleanupJobs now js) ∧
    (∀ info bt st, cleanupJobs now js jid = some info → wl info.ip = false →
      fetchWithRetryGo attempts 0 2 = some (TaskState.success bt st) →
      (handler2CheckStatus wl today now s js (some jid) attempts).1.status = 200 ∧
      (handler2CheckStatus wl today now s js (some jid) attempts).1.ok = true ∧
      (handler2CheckStatus wl today now s js (some jid) attempts).1.back_track_url
        = some bt ∧
      (handler2CheckStatus wl today now s js (some jid) attempts).1.stem_track_url
        = some st ∧
      (handler2CheckStatus wl today now s js (some jid) attempts).2.2 jid = none ∧
      (∀ k, k ≠ jid →
        (handler2CheckStatus wl today now s js (some jid) attempts).2.2 k
          = cleanupJobs now js k) ∧
      effectiveCount today
          (handler2CheckStatus wl today now s js (some jid) attempts).2.1 info.ip
        = effectiveCount today s info.ip + 1 ∧
      effectiveProcessing today
          (handler2CheckStatus wl today now s js (some jid) attempts).2.1 info.ip = false) ∧
    (∀ info, cleanupJobs now js jid = some info → wl info.ip = false →
      (fetchWithRetryGo attempts 0 2 = some TaskState.error ∨
        fetchWithRetryGo attempts 0 2 = some TaskState.cancelled) →
      (handler2CheckStatus wl today now s js (some jid) attempts).1.status = 502 ∧
      (handler2CheckStatus wl today now s js (some jid) attempts).2.2 jid = none ∧
      effectiveCount today
          (handler2CheckStatus wl today now s js (some jid) attempts).2.1 info.ip
        = max 0 (effectiveCount today s info.ip - 1) ∧
      effectiveProcessing today
          (handler2CheckStatus wl today now s js (some jid) attempts).2.1 info.ip = false) ∧
    (∀ info, cleanupJobs now js jid = some info →
      fetchWithRetryGo attempts 0 2 = some TaskState.other →
      (handler2CheckStatus wl today now s js (some jid) attempts).1.status = 200 ∧
      (handler2CheckStatus wl today now s js (some jid) attempts).1.processing = true ∧
      (handler2CheckStatus wl today now s js (some jid) attempts).2.1
        = cleanupOldEntries today s ∧
      (handler2CheckStatus wl today now s js (some jid) attempts).2.2
        = cleanupJobs now js) := by
  refine ⟨?_, ?_, ?_, ?_⟩
  · intro h404
    simp [handler2CheckStatus, hid, h404]
  · intro info bt st hinfo hwd hfetch
    have hred : handler2CheckStatus wl today now s js (some jid) attempts =
        ({ status := 200, ok := true, back_track_url := some bt, stem_track_url := some st,
           remaining_uploads := some (checkRateLimit wl today
             (incrementRateLimit wl today (cleanupOldEntries today s) info.ip)
             info.ip).1.remaining },
         (checkRateLimit wl today
           (incrementRateLimit wl today (cleanupOldEntries today s) info.ip) info.ip).2,
         JobStore.del (cleanupJobs now js) jid) := by
      simp [handler2CheckStatus, hid, hinfo, hfetch]
    rw [hred, increment_entry hwd,
      checkRateLimit_idle (d := ⟨effectiveCount today s info.ip + 1, today, false⟩) hwd
        (write_at (cleanupOldEntries today s) info.ip
          ⟨effectiveCount today s info.ip + 1, today, false⟩) rfl rfl]
    refine ⟨rfl, rfl, rfl, rfl, jobDel_at _ _, fun k hk => jobDel_ne _ _ hk, ?_, ?_⟩
    · simp [effectiveCount, write_at]
    · simp [effectiveProcessing, write_at]
  · intro info hinfo hwd hfe
    have hred : handler2CheckStatus wl today now s js (some jid) attempts =
        ({ status := 502, error := some errProcessingFailed },
         decrementRateLimit wl (cleanupOldEntries today s) info.ip,
         JobStore.del (cleanupJobs now js) jid) := by
      rcases hfe with hfe | hfe <;> simp [handler2CheckStatus, hid, hinfo, hfe]
    rw [hred]
    obtain ⟨hdc, hdp⟩ := @decrement_entry wl today s info.ip hwd
    exact ⟨rfl, jobDel_at _ _, hdc, hdp⟩
  · intro info hinfo hfetch
    simp [handler2CheckStatus, hid, hinfo, hfetch]

/-- Witness for C6: a stored, unexpired job whose single state query
reports success answers 200, deletes the job and credits the owner's count
from 1 to 2. -/
theorem C6_check_status_contract_witness :
    cleanupJobs 1000 jobStoreOne 5 = some ⟨"started", stemVoice, 0, 0⟩ ∧
    (handler2CheckStatus wlNone 0 1000 storeOneUsed jobStoreOne (some 5)
      (fun _ => some (TaskState.success backUrl stemUrl))).1.status = 200 ∧
    (handler2CheckStatus wlNone 0 1000 storeOneUsed jobStoreOne (some 5)
      (fun _ => some (TaskState.success backUrl stemUrl))).2.2 5 = none ∧
    effectiveCount 0 (handler2CheckStatus wlNone 0 1000 storeOneUsed jobStoreOne (some 5)
      (fun _ => some (TaskState.success backUrl stemUrl))).2.1 0
      = effectiveCount 0 storeOneUsed 0 + 1 := by
  have h := (C6_check_status_contract wlNone 0 1000 storeOneUsed jobStoreOne 5
    (fun _ => some (TaskState.success backUrl stemUrl)) (by decide)).2.1
    ⟨"started", stemVoice, 0, 0⟩ backUrl stemUrl (by decide) rfl (by decide)
  exact ⟨by decide, h.1, h.2.2.2.2.1, h.2.2.2.2.2.2.1⟩

/-- C7: the first quota-checking request of a non-exempt identity on a new
day — its stored entry absent or dated to another day — is allowed, reports
remaining equal to `DAILY_LIMIT` regardless of the prior day's count, and
resets the stored entry to count 0 for today. -/
theorem C7_day_rollover_resets_and_allows
    (wl : Whitelist) (today : Day) (s : QuotaStore) (ip : Ip)
    (body : RequestBody) (env : UpstreamEnv)
    (hw : wl ip = false)
    (hstale : s ip = none ∨ ∃ d, s ip = some d ∧ d.date ≠ today)
    (hact : body.action = "check_limit") :
    (handler3 wl today s ip body env).1.status = 200 ∧
    (handler3 wl today s ip body env).1.remaining = some DAILY_LIMIT ∧
    (handler3 wl today s ip body env).1.can_upload = some true ∧
    (handler3 wl today s ip body env).2 ip = some ⟨0, today, false⟩ := by
  have hb : cleanupOldEntries today s ip = none := by
    rcases hstale with h | ⟨d, hsd, hd⟩
    · exact cleanup_none today h
    · exact cleanup_stale hsd hd
  rw [handler3_check_limit hact, checkRateLimit_fresh today hw hb]
  exact ⟨rfl, rfl, rfl, write_at _ _ _⟩

/-- Witness for C7: an identity that used two uploads yesterday checks its
limit today and sees the full quota again, with a fresh stored entry. -/
theorem C7_day_rollover_resets_and_allows_witness :
    (handler3 wlNone 1 storeStaleTwo 0 bodyCheckLimit envIdle).1.status = 200 ∧
    (handler3 wlNone 1 storeStaleTwo 0 bodyCheckLimit envIdle).1.remaining
      = some DAILY_LIMIT ∧
    (handler3 wlNone 1 storeStaleTwo 0 bodyCheckLimit envIdle).1.can_upload = some true ∧
    (handler3 wlNone 1 storeStaleTwo 0 bodyCheckLimit envIdle).2 0 = some ⟨0, 1, false⟩ :=
  C7_day_rollover_resets_and_allows wlNone 1 storeStaleTwo 0 bodyCheckLimit envIdle rfl
    (Or.inr ⟨⟨2, 0, false⟩, by decide, by decide⟩) rfl

/-- C8 counterexample: the claim says a validation-rejected upload leaves
the identity's stored count and flag exactly as before the request.  It
does not: an oversized upload from an identity whose entry is stale first
passes through the per-request sweep and the rate check, which replace the
stored entry `{count 2, day 0}` with a fresh `{count 0, day 1}` entry before
the 413 rejection, so the stored state after the response differs from the
stored state before the request. -/
theorem C8_oversized_upload_rewrites_stale_entry :
    (handler3 wlNone 1 storeStaleTwo 0 bodyUploadBig envIdle).1.status = 413 ∧
    (handler3 wlNone 1 storeStaleTwo 0 bodyUploadBig envIdle).1.error
      = some errFileTooLarge ∧
    (handler3 wlNone 1 storeStaleTwo 0 bodyUploadBig envIdle).2 0 = some ⟨0, 1, false⟩ ∧
    ¬ ((handler3 wlNone 1 storeStaleTwo 0 bodyUploadBig envIdle).2 0 = storeStaleTwo 0) := by
  decide

/-- C8 (amended): an `upload` request that fails validation is rejected as
the claim states — invalid stem with 400 before any per-identity quota
interaction, oversized declared file with 413 — and the identity's
day-effective quota state (current-day count and processing flag) is
unchanged; the literal stored entry, however, may be normalized on the way:
the per-request sweep drops stale entries, and the rate check preceding the
size check writes a fresh zero entry for the current day. -/
theorem C8_validation_failures_preserve_effective_quota
    (wl : Whitelist) (today : Day) (s : QuotaStore) (ip : Ip)
    (body : RequestBody) (env : UpstreamEnv) (hact : body.action = "upload") :
    (stemOk body.stem = false →
      (handler3 wl today s ip body env).1.status = 400 ∧
      (handler3 wl today s ip body env).1.error = some errInvalidStem ∧
      effectiveCount today (handler3 wl today s ip body env).2 ip
        = effectiveCount today s ip ∧
      effectiveProcessing today (handler3 wl today s ip body env).2 ip
        = effectiveProcessing today s ip) ∧
    (stemOk body.stem = true → wl ip = false →
      effectiveProcessing today s ip = false →
      effectiveCount today s ip < DAILY_LIMIT →
      fileSizeTooLarge body.fileSize = true →
      (handler3 wl today s ip body env).1.status = 413 ∧
      (handler3 wl today s ip body env).1.error = some errFileTooLarge ∧
      effectiveCount today (handler3 wl today s ip body env).2 ip
        = effectiveCount today s ip ∧
      effectiveProcessing today (handler3 wl today s ip body env).2 ip = false) := by
  constructor
  · intro hstem
    rw [handler3_upload_bad_stem hact hstem]
    exact ⟨rfl, rfl, effectiveCount_cleanup today s ip, effectiveProcessing_cleanup today s ip⟩
  · intro hstem hw hidle hroom hbig
    have hp' : effectiveProcessing today (cleanupOldEntries today s) ip = false := by
      rw [effectiveProcessing_cleanup]; exact hidle
    have hc' : effectiveCount today (cleanupOldEntries today s) ip < DAILY_LIMIT := by
      rw [effectiveCount_cleanup]; exact hroom
    obtain ⟨hal, _⟩ := checkRateLimit_allowed_of_effective hw hp' hc'
    obtain ⟨hentry, _⟩ := checkRateLimit_allowed_entry hw hal
    rw [handler3_upload hact hstem, uploadAction3_too_large hal hbig]
    refine ⟨rfl, rfl, ?_, ?_⟩
    · simp [effectiveCount, hentry]
      exact effectiveCount_cleanup today s ip
    · simp [effectiveProcessing, hentry]

/-- Witness for C8 (amended): a fresh identity declares a 90MB file; the
rejection is 413 and its day-effective count and flag are untouched. -/
theorem C8_validation_failures_preserve_effective_quota_witness :
    (handler3 wlNone 0 QuotaStore.empty 0 bodyUploadBig envIdle).1.status = 413 ∧
    (handler3 wlNone 0 QuotaStore.empty 0 bodyUploadBig envIdle).1.error
      = some errFileTooLarge ∧
    effectiveCount 0 (handler3 wlNone 0 QuotaStore.empty 0 bodyUploadBig envIdle).2 0
      = effectiveCount 0 QuotaStore.empty 0 ∧
    effectiveProcessing 0 (handler3 wlNone 0 QuotaStore.empty 0 bodyUploadBig envIdle).2 0
      = false :=
  (C8_validation_failures_preserve_effective_quota wlNone 0 QuotaStore.empty 0
    bodyUploadBig envIdle rfl).2 (by decide) rfl (by decide) (by decide) (by decide)

/-- C9: `checkRateLimit` is not read-only — for a non-exempt identity whose
entry is absent or dated to another day, both the bare rate check and the
pure `check_limit` action write a fresh `{count 0, date today, processing
false}` entry into the store, clearing any stale processing flag. -/
theorem C9_checkRateLimit_writes_fresh_entry
    (wl : Whitelist) (today : Day) (s : QuotaStore) (ip : Ip)
    (body : RequestBody) (env : UpstreamEnv)
    (hw : wl ip = false)
    (hstale : s ip = none ∨ ∃ d, s ip = some d ∧ d.date ≠ today) :
    (checkRateLimit wl today s ip).2 ip = some ⟨0, today, false⟩ ∧
    (body.action = "check_limit" →
      (handler3 wl today s ip body env).2 ip = some ⟨0, today, false⟩) := by
  constructor
  · rcases hstale with h | ⟨d, hsd, hd⟩
    · rw [checkRateLimit_fresh today hw h]
      exact write_at _ _ _
    · rw [checkRateLimit_rollover hw hsd hd]
      exact write_at _ _ _
  · intro hact
    have hb : cleanupOldEntries today s ip = none := by
      rcases hstale with h | ⟨d, hsd, hd⟩
      · exact cleanup_none today h
      · exact cleanup_stale hsd hd
    rw [handler3_check_limit hact, checkRateLimit_fresh today hw hb]
    exact write_at _ _ _

/-- Witness for C9: an identity with a stale two-upload entry is re-seeded
with a fresh zero entry both by the bare rate check and by a `check_limit`
request. -/
theorem C9_checkRateLimit_writes_fresh_entry_witness :
    (checkRateLimit wlNone 1 storeStaleTwo 0).2 0 = some ⟨0, 1, false⟩ ∧
    (bodyCheckLimit.action = "check_limit" →
      (handler3 wlNone 1 storeStaleTwo 0 bodyCheckLimit envIdle).2 0
        = some ⟨0, 1, false⟩) :=
  C9_checkRateLimit_writes_fresh_entry wlNone 1 storeStaleTwo 0 bodyCheckLimit envIdle rfl
    (Or.inr ⟨⟨2, 0, false⟩, by decide, by decide⟩)

/-- C10: the size and duration rejections fire only on truthy declared
values — with a falsy `fileSize` (absent or 0) and falsy
`estimatedDuration`, both guards are false, so an upload passing the quota
check is authorized regardless of the file's actual size. -/
theorem C10_falsy_declared_fields_skip_size_checks
    (wl : Whitelist) (today : Day) (s : QuotaStore) (ip : Ip)
    (body : RequestBody) (env : UpstreamEnv)
    (hw : wl ip = false) (hact : body.action = "upload") (hstem : stemOk body.stem = true)
    (hfs : truthyInt body.fileSize = false)
    (hdur : truthyInt body.estimatedDuration = false)
    (hidle : effectiveProcessing today s ip = false)
    (hroom : effectiveCount today s ip < DAILY_LIMIT) :
    fileSizeTooLarge body.fileSize = false ∧
    durationTooLong body.estimatedDuration = false ∧
    (handler3 wl today s ip body env).1.status = 200 ∧
    (handler3 wl today s ip body env).1.error = none ∧
    effectiveProcessing today (handler3 wl today s ip body env).2 ip = true := by
  have h1 : fileSizeTooLarge body.fileSize = false := by
    cases hv : body.fileSize with
    | none => rfl
    | some n =>
      rw [hv] at hfs
      simp [truthyInt] at hfs
      simp [fileSizeTooLarge, hfs]
  have h2 : durationTooLong body.estimatedDuration = false := by
    cases hv : body.estimatedDuration with
    | none => rfl
    | some n =>
      rw [hv] at hdur
      simp [truthyInt] at hdur
      simp [durationTooLong, hdur]
  obtain ⟨hs200, herr, hstate⟩ := upload_authorized_state env hw hact hstem hidle hroom h1 h2
  refine ⟨h1, h2, hs200, herr, ?_⟩
  simp [effectiveProcessing, hstate]

/-- Witness for C10: an upload declaring no `fileSize` at all is authorized
on the quota check alone. -/
theorem C10_falsy_declared_fields_skip_size_checks_witness :
    fileSizeTooLarge bodyUploadNoSize.fileSize = false ∧
    durationTooLong bodyUploadNoSize.estimatedDuration = false ∧
    (handler3 wlNone 0 QuotaStore.empty 0 bodyUploadNoSize envIdle).1.status = 200 ∧
    (handler3 wlNone 0 QuotaStore.empty 0 bodyUploadNoSize envIdle).1.error = none ∧
    effectiveProcessing 0 (handler3 wlNone 0 QuotaStore.empty 0 bodyUploadNoSize envIdle).2 0
      = true :=
  C10_falsy_declared_fields_skip_size_checks wlNone 0 QuotaStore.empty 0 bodyUploadNoSize
    envIdle rfl rfl (by decide) rfl rfl rfl (by decide)

end MuteOne
